import Mathlib

/-!
Shallow embedding of src/Transformers/transformers.py (a sequence-to-sequence
Transformer: SelfAttention, TransformerBlock, Encoder, Decoder, Transformer).

Modelling conventions:
* Floating-point tensors become functions into ℝ; a tensor of shape
  (batch, len, dim) is a structure carrying its three extents and a total
  data function (entries outside the extents are irrelevant junk, as in a
  strided view).
* Token-id tensors carry ℕ entries.
* Fallible operations (the runtime errors PyTorch raises that the claims
  exercise: out-of-range embedding lookup, and a torch.einsum dimension
  mismatch between the attention weights' key axis and the values' length
  axis) are modelled with Option: none is the raised error, so an erroring
  call yields no partial output.
* nn.Dropout is the identity at inference (eval mode); the deterministic
  forward functions below are the eval-mode semantics, matching the spec's
  statement that dropout is a training-only stochastic regularizer.
* A reshape of a contiguous (N, len, heads*head_dim) tensor into
  (N, len, heads, head_dim) is the row-major index reinterpretation
  e = h * head_dim + d, embedded directly as index arithmetic.
-/

noncomputable section

/-- A real-valued rank-3 tensor of shape (N, len, dim) with its data function. -/
structure Tensor3 where
  N : ℕ
  len : ℕ
  dim : ℕ
  data : ℕ → ℕ → ℕ → ℝ

/-- A real-valued rank-4 tensor of shape (N, heads, qlen, klen): the attention
weights returned by SelfAttention.forward. -/
structure Tensor4 where
  N : ℕ
  heads : ℕ
  qlen : ℕ
  klen : ℕ
  data : ℕ → ℕ → ℕ → ℕ → ℝ

/-- An integer token-id tensor of shape (N, len). -/
structure TokenIds where
  N : ℕ
  len : ℕ
  ids : ℕ → ℕ → ℕ

/-- A mask tensor broadcastable to (N, heads, qlen, klen); entry 0 marks a
forbidden (query, key) pair.  Broadcasting is implicit in the function
representation. -/
abbrev Mask4 : Type := ℕ → ℕ → ℕ → ℕ → ℝ

/-- Parameters of nn.Linear: weight (out_features × in_features) and bias. -/
structure LinearParams where
  weight : ℕ → ℕ → ℝ
  bias : ℕ → ℝ

/-- nn.Linear with bias applied to the last axis: y o = W o · x + b o. -/
def linearApply (in_features : ℕ) (p : LinearParams) (x : ℕ → ℝ) : ℕ → ℝ :=
  fun o => (∑ i ∈ Finset.range in_features, p.weight o i * x i) + p.bias o

/-- The eps constant of nn.LayerNorm (default 1e-5). -/
def layerNormEps : ℝ := 1 / 100000

/-- nn.LayerNorm over the last axis of extent dim, with learned elementwise
affine weight w and bias b; torch uses the biased variance. -/
def layerNorm (dim : ℕ) (w b : ℕ → ℝ) (x : ℕ → ℝ) : ℕ → ℝ :=
  let mean : ℝ := (∑ j ∈ Finset.range dim, x j) / (dim : ℝ)
  let variance : ℝ := (∑ j ∈ Finset.range dim, (x j - mean) ^ 2) / (dim : ℝ)
  fun i => (x i - mean) / Real.sqrt (variance + layerNormEps) * w i + b i

/-- The large negative sentinel float("-1e20") used by masked_fill. -/
def sentinel : ℝ := -(10 : ℝ) ^ 20

/-- torch.softmax along an axis of extent m, evaluated at index k. -/
def softmaxAt (m : ℕ) (f : ℕ → ℝ) (k : ℕ) : ℝ :=
  Real.exp (f k) / ∑ j ∈ Finset.range m, Real.exp (f j)

/-- Parameters of SelfAttention: sizes, the three declared per-head-slice
linear maps (head_dim → head_dim, no bias) and the output projection
fc_out : heads*head_dim → embed_size (with bias). -/
structure SelfAttentionParams where
  embed_size : ℕ
  heads : ℕ
  head_dim : ℕ
  values : ℕ → ℕ → ℝ
  keys : ℕ → ℕ → ℝ
  queries : ℕ → ℕ → ℝ
  fc_out : LinearParams

/-- values.reshape(N, len, heads, head_dim): row-major reinterpretation of the
last axis, entry (n, l, h, d) reads flat embedding index h * head_dim + d. -/
def reshapeHeads (head_dim : ℕ) (t : Tensor3) : ℕ → ℕ → ℕ → ℕ → ℝ :=
  fun n l h d => t.data n l (h * head_dim + d)

/-- energy = torch.einsum("nqhd,nkhd->nhqk", [query, keys]) on the reshaped
tensors: the source computes this directly from the reshaped inputs (the
declared p.queries / p.keys linear layers are not applied in forward). -/
def SelfAttention.rawEnergy (p : SelfAttentionParams) (keys query : Tensor3) :
    ℕ → ℕ → ℕ → ℕ → ℝ :=
  fun n h q k => ∑ d ∈ Finset.range p.head_dim,
    reshapeHeads p.head_dim query n q h d * reshapeHeads p.head_dim keys n k h d

/-- energy.masked_fill(mask == 0, float("-1e20")) when a mask is supplied,
else the raw energy. -/
def SelfAttention.maskedEnergy (p : SelfAttentionParams) (keys query : Tensor3)
    (mask : Option Mask4) : ℕ → ℕ → ℕ → ℕ → ℝ :=
  match mask with
  | none => SelfAttention.rawEnergy p keys query
  | some m => fun n h q k =>
      if m n h q k = 0 then sentinel else SelfAttention.rawEnergy p keys query n h q k

/-- attention = torch.softmax(energy / (embed_size ** (1/2)), dim=3): the
key axis has extent keys.len and the divisor is the square root of the full
embed_size. -/
def SelfAttention.attnWeights (p : SelfAttentionParams) (keys query : Tensor3)
    (mask : Option Mask4) : ℕ → ℕ → ℕ → ℕ → ℝ :=
  fun n h q k =>
    softmaxAt keys.len
      (fun j => SelfAttention.maskedEnergy p keys query mask n h q j /
        Real.sqrt (p.embed_size : ℝ))
      k

/-- out = torch.einsum("nhql,nlhd->nqhd", [attention, values]).reshape(N,
query_len, heads*head_dim) followed by fc_out.  The flattened embedding index
i splits as h = i / head_dim, d = i % head_dim.  The contracted label l has
size keys.len on the attention operand and values.len on the values operand;
torch.einsum broadcasts a size-1 occurrence against the other, so the
contraction runs over the broadcast extent (keys.len unless it is 1, then
values.len) and a size-1 operand is read at index 0 throughout. -/
def SelfAttention.attnOut (p : SelfAttentionParams)
    (values keys query : Tensor3) (mask : Option Mask4) : Tensor3 :=
  { N := query.N
    len := query.len
    dim := p.embed_size
    data := fun n q e =>
      linearApply (p.heads * p.head_dim) p.fc_out
        (fun i => ∑ l ∈ Finset.range (if keys.len = 1 then values.len else keys.len),
          SelfAttention.attnWeights p keys query mask n (i / p.head_dim) q
              (if keys.len = 1 then 0 else l) *
            reshapeHeads p.head_dim values n (if values.len = 1 then 0 else l)
              (i / p.head_dim) (i % p.head_dim))
        e }

/-- SelfAttention.forward: returns (out, attention).  torch.einsum raises when
the two occurrences of the contracted label l have sizes that do not
broadcast: the values length may differ from the attention weights' key
extent only when one of the two is 1 (a size-1 dimension broadcasts).  A
non-broadcastable mismatch is the none branch, and then nothing is returned
(the weights are discarded too). -/
def SelfAttention.forward (p : SelfAttentionParams)
    (values keys query : Tensor3) (mask : Option Mask4) :
    Option (Tensor3 × Tensor4) :=
  if values.len = keys.len ∨ values.len = 1 ∨ keys.len = 1 then
    some (SelfAttention.attnOut p values keys query mask,
      { N := query.N
        heads := p.heads
        qlen := query.len
        klen := keys.len
        data := SelfAttention.attnWeights p keys query mask })
  else none

/-- Parameters of TransformerBlock: the attention sub-module, the two
LayerNorm affine pairs, and the two feed-forward linear layers. -/
structure BlockParams where
  attention : SelfAttentionParams
  embed_size : ℕ
  forward_expansion : ℕ
  norm1_w : ℕ → ℝ
  norm1_b : ℕ → ℝ
  norm2_w : ℕ → ℝ
  norm2_b : ℕ → ℝ
  ff1 : LinearParams
  ff2 : LinearParams

/-- self.feed_forward = Linear(embed_size, forward_expansion*embed_size) →
ReLU → Linear(forward_expansion*embed_size, embed_size). -/
def feedForward (bp : BlockParams) (v : ℕ → ℝ) : ℕ → ℝ :=
  linearApply (bp.forward_expansion * bp.embed_size) bp.ff2
    (fun j => max (linearApply bp.embed_size bp.ff1 v j) 0)

/-- The part of TransformerBlock.forward after the attention call:
x = dropout(norm1(attention + query)); out = dropout(norm2(feed_forward(x) + x)),
with dropout the identity in eval mode.  a is the attention output tensor. -/
def TransformerBlock.post (bp : BlockParams) (a query : Tensor3) : Tensor3 :=
  { N := a.N
    len := a.len
    dim := bp.embed_size
    data := fun n l =>
      let x : ℕ → ℝ :=
        layerNorm bp.embed_size bp.norm1_w bp.norm1_b
          (fun e => a.data n l e + query.data n l e)
      layerNorm bp.embed_size bp.norm2_w bp.norm2_b
        (fun e => feedForward bp x e + x e) }

/-- TransformerBlock.forward: attention, _ = self.attention(value, key, query,
mask); then the residual/normalize/feed-forward tail; an attention error
propagates. -/
def TransformerBlock.forward (bp : BlockParams) (value key query : Tensor3)
    (mask : Option Mask4) : Option Tensor3 :=
  (SelfAttention.forward bp.attention value key query mask).map
    (fun ow => TransformerBlock.post bp ow.1 query)

/-- Parameters of Encoder: vocabulary / size configuration, the two embedding
tables, and the stacked blocks. -/
structure EncoderParams where
  src_vocab_size : ℕ
  embed_size : ℕ
  max_length : ℕ
  word_embedding : ℕ → ℕ → ℝ
  position_embedding : ℕ → ℕ → ℝ
  layers : List BlockParams

/-- Parameters of Decoder: as Encoder plus the final vocabulary projection. -/
structure DecoderParams where
  trg_vocab_size : ℕ
  embed_size : ℕ
  max_length : ℕ
  word_embedding : ℕ → ℕ → ℝ
  position_embedding : ℕ → ℕ → ℝ
  layers : List BlockParams
  fc_out : LinearParams

/-- word_embedding(x) + position_embedding(positions) where positions =
arange(0, seq_length).expand(N, seq_length); dropout is the identity in eval
mode.  Used by both Encoder and Decoder. -/
def embedTokens (embed_size : ℕ) (wordE posE : ℕ → ℕ → ℝ) (x : TokenIds) :
    Tensor3 :=
  { N := x.N
    len := x.len
    dim := embed_size
    data := fun n l e => wordE (x.ids n l) e + posE l e }

/-- The encoder loop: for layer in self.layers: out = layer(out, out, out, mask). -/
def runLayersSelf : List BlockParams → Tensor3 → Option Mask4 → Option Tensor3
  | [], t, _ => some t
  | bp :: rest, t, m =>
    match TransformerBlock.forward bp t t t m with
    | none => none
    | some t' => runLayersSelf rest t' m

/-- Encoder.forward: the embedding lookups raise when a token id is ≥
src_vocab_size or when a position index is ≥ max_length (which happens exactly
when seq_length > max_length); otherwise the stacked blocks run. -/
def Encoder.forward (p : EncoderParams) (x : TokenIds) (mask : Option Mask4) :
    Option Tensor3 :=
  if (∀ n < x.N, ∀ l < x.len, x.ids n l < p.src_vocab_size) ∧
      x.len ≤ p.max_length then
    runLayersSelf p.layers
      (embedTokens p.embed_size p.word_embedding p.position_embedding x) mask
  else none

/-- The decoder loop: for layer in self.layers: x = layer(x, enc_out, x,
trg_mask) — the value argument is the current decoder state x and the key
argument is enc_out, exactly as in the source. -/
def runLayersCross : List BlockParams → Tensor3 → Tensor3 → Option Mask4 →
    Option Tensor3
  | [], t, _, _ => some t
  | bp :: rest, t, enc_out, m =>
    match TransformerBlock.forward bp t enc_out t m with
    | none => none
    | some t' => runLayersCross rest t' enc_out m

/-- Decoder.forward(x, enc_out, src_mask, trg_mask): embedding-range checks as
in the Encoder, then the layer loop, then fc_out to vocabulary logits.  The
src_mask parameter is accepted (at any type, as in dynamically typed Python)
and never read. -/
def Decoder.forward {α : Type} (p : DecoderParams) (x : TokenIds)
    (enc_out : Tensor3) (src_mask : α) (trg_mask : Option Mask4) :
    Option Tensor3 :=
  if (∀ n < x.N, ∀ l < x.len, x.ids n l < p.trg_vocab_size) ∧
      x.len ≤ p.max_length then
    match runLayersCross p.layers
        (embedTokens p.embed_size p.word_embedding p.position_embedding x)
        enc_out trg_mask with
    | none => none
    | some t =>
      some { N := t.N
             len := t.len
             dim := p.trg_vocab_size
             data := fun n l => linearApply p.embed_size p.fc_out (t.data n l) }
  else none

/-- Parameters of the full Transformer. -/
structure TransformerParams where
  encoder : EncoderParams
  decoder : DecoderParams

/-- Transformer.forward: enc_out = encoder(src, src_mask); out =
decoder(trg, enc_out, enc_out, trg_mask) — the decoder's second AND third
positional arguments are both the encoder output (the third lands in the
unread src_mask slot). -/
def Transformer.forward (p : TransformerParams) (src trg : TokenIds)
    (src_mask trg_mask : Option Mask4) : Option Tensor3 :=
  match Encoder.forward p.encoder src src_mask with
  | none => none
  | some enc_out => Decoder.forward p.decoder trg enc_out enc_out trg_mask

/-- Raw weight material handed to the SelfAttention constructor (PyTorch draws
these randomly; randomness is external to the core). -/
structure RawAttentionWeights where
  Wv : ℕ → ℕ → ℝ
  Wk : ℕ → ℕ → ℝ
  Wq : ℕ → ℕ → ℝ
  fc : LinearParams

/-- SelfAttention.__init__: head_dim = embed_size // heads, then
assert head_dim * heads == embed_size.  heads = 0 raises ZeroDivisionError in
Python; a failed assert raises AssertionError; both are the none branch. -/
def mkSelfAttention (embed_size heads : ℕ) (w : RawAttentionWeights) :
    Option SelfAttentionParams :=
  if heads = 0 then none
  else if embed_size / heads * heads = embed_size then
    some { embed_size := embed_size
           heads := heads
           head_dim := embed_size / heads
           values := w.Wv
           keys := w.Wk
           queries := w.Wq
           fc_out := w.fc }
  else none

/-- Raw weight material handed to the TransformerBlock constructor. -/
structure RawBlockWeights where
  attn : RawAttentionWeights
  n1w : ℕ → ℝ
  n1b : ℕ → ℝ
  n2w : ℕ → ℝ
  n2b : ℕ → ℝ
  ff1 : LinearParams
  ff2 : LinearParams

/-- TransformerBlock.__init__: constructs its SelfAttention (whose assert can
fail) and the norm / feed-forward parameters. -/
def mkTransformerBlock (embed_size heads forward_expansion : ℕ)
    (w : RawBlockWeights) : Option BlockParams :=
  (mkSelfAttention embed_size heads w.attn).map
    (fun ap =>
      { attention := ap
        embed_size := embed_size
        forward_expansion := forward_expansion
        norm1_w := w.n1w
        norm1_b := w.n1b
        norm2_w := w.n2w
        norm2_b := w.n2b
        ff1 := w.ff1
        ff2 := w.ff2 })

/-- The ModuleList comprehension: num_layers TransformerBlocks are
constructed, each running the SelfAttention assert. -/
def mkLayers (embed_size heads forward_expansion : ℕ)
    (raws : ℕ → RawBlockWeights) : ℕ → Option (List BlockParams)
  | 0 => some []
  | n + 1 =>
    (mkTransformerBlock embed_size heads forward_expansion (raws n)).bind
      (fun b => (mkLayers embed_size heads forward_expansion raws n).map
        (fun bs => b :: bs))

/-- Encoder.__init__. -/
def mkEncoder (src_vocab_size embed_size num_layers heads forward_expansion
    max_length : ℕ) (wordE posE : ℕ → ℕ → ℝ) (raws : ℕ → RawBlockWeights) :
    Option EncoderParams :=
  (mkLayers embed_size heads forward_expansion raws num_layers).map
    (fun L =>
      { src_vocab_size := src_vocab_size
        embed_size := embed_size
        max_length := max_length
        word_embedding := wordE
        position_embedding := posE
        layers := L })

/-- Decoder.__init__. -/
def mkDecoder (trg_vocab_size embed_size num_layers heads forward_expansion
    max_length : ℕ) (wordE posE : ℕ → ℕ → ℝ) (raws : ℕ → RawBlockWeights)
    (fc : LinearParams) : Option DecoderParams :=
  (mkLayers embed_size heads forward_expansion raws num_layers).map
    (fun L =>
      { trg_vocab_size := trg_vocab_size
        embed_size := embed_size
        max_length := max_length
        word_embedding := wordE
        position_embedding := posE
        layers := L
        fc_out := fc })

/-- Transformer.__init__: constructs the Encoder then the Decoder; a failed
assert in either aborts construction, so no forward pass can be attempted. -/
def mkTransformer (src_vocab_size trg_vocab_size embed_size num_layers heads
    forward_expansion max_length : ℕ) (wEs pEs wEd pEd : ℕ → ℕ → ℝ)
    (rawsE rawsD : ℕ → RawBlockWeights) (fc : LinearParams) :
    Option TransformerParams :=
  match mkEncoder src_vocab_size embed_size num_layers heads forward_expansion
      max_length wEs pEs rawsE,
    mkDecoder trg_vocab_size embed_size num_layers heads forward_expansion
      max_length wEd pEd rawsD fc with
  | some e, some d => some { encoder := e, decoder := d }
  | _, _ => none

/-!  Spec-side definitions, written from the spec's words, to be compared
with the source-side definitions above. -/

/-- Follows the spec's words for the energy computation: apply the learned
linear maps (no bias) of p.queries and p.keys to the head_dim axis of the
reshaped query and keys, then take the dot product over head_dim of the
projected tensors. -/
def specProjectedEnergy (p : SelfAttentionParams) (keys query : Tensor3) :
    ℕ → ℕ → ℕ → ℕ → ℝ :=
  fun n h q k => ∑ d ∈ Finset.range p.head_dim,
    (∑ e ∈ Finset.range p.head_dim,
        p.queries d e * reshapeHeads p.head_dim query n q h e) *
      (∑ e ∈ Finset.range p.head_dim,
        p.keys d e * reshapeHeads p.head_dim keys n k h e)

/-- Follows the spec's words: attention = softmax(energy / sqrt(embed_size),
dim = key axis), the divisor being the square root of the full embed_size. -/
def specScaledSoftmax (p : SelfAttentionParams) (keys query : Tensor3)
    (mask : Option Mask4) : ℕ → ℕ → ℕ → ℕ → ℝ :=
  fun n h q k =>
    softmaxAt keys.len
      (fun j => SelfAttention.maskedEnergy p keys query mask n h q j /
        Real.sqrt (p.embed_size : ℝ))
      k

/-- Follows the spec's words for the Block tail: x = Normalize(attn_out +
query); out = Normalize(feed_forward(x) + x), the residual addends being
query and x respectively. -/
def specBlockOut (bp : BlockParams) (attn_out query : ℕ → ℝ) : ℕ → ℝ :=
  let x : ℕ → ℝ :=
    layerNorm bp.embed_size bp.norm1_w bp.norm1_b
      (fun e => attn_out e + query e)
  layerNorm bp.embed_size bp.norm2_w bp.norm2_b
    (fun e => feedForward bp x e + x e)

/-- Follows the spec's words for the decoder loop: each Block is invoked as
cross-attention with value = key = enc_out and query = the current decoder
state. -/
def specRunLayersCross : List BlockParams → Tensor3 → Tensor3 → Option Mask4 →
    Option Tensor3
  | [], t, _, _ => some t
  | bp :: rest, t, enc_out, m =>
    match TransformerBlock.forward bp enc_out enc_out t m with
    | none => none
    | some t' => specRunLayersCross rest t' enc_out m

/-- Decoder.forward as the spec describes it: identical to the source except
that the layer loop binds value = key = enc_out. -/
def specDecoderForward {α : Type} (p : DecoderParams) (x : TokenIds)
    (enc_out : Tensor3) (src_mask : α) (trg_mask : Option Mask4) :
    Option Tensor3 :=
  if (∀ n < x.N, ∀ l < x.len, x.ids n l < p.trg_vocab_size) ∧
      x.len ≤ p.max_length then
    match specRunLayersCross p.layers
        (embedTokens p.embed_size p.word_embedding p.position_embedding x)
        enc_out trg_mask with
    | none => none
    | some t =>
      some { N := t.N
             len := t.len
             dim := p.trg_vocab_size
             data := fun n l => linearApply p.embed_size p.fc_out (t.data n l) }
  else none

/-!  Concrete instances used by witnesses and counterexample-style theorems. -/

/-- An all-zero linear layer. -/
def zeroLinear : LinearParams := { weight := fun _ _ => 0, bias := fun _ => 0 }

/-- A minimal SelfAttention parameter set: embed_size 1, one head, head_dim 1,
all projection weights zero. -/
def attnP1 : SelfAttentionParams :=
  { embed_size := 1
    heads := 1
    head_dim := 1
    values := fun _ _ => 0
    keys := fun _ _ => 0
    queries := fun _ _ => 0
    fc_out := zeroLinear }

/-- An all-ones (1, 1, 1) tensor. -/
def onesT3 : Tensor3 := { N := 1, len := 1, dim := 1, data := fun _ _ _ => 1 }

/-- An all-ones (1, 2, 1) tensor: sequence length 2. -/
def onesT3len2 : Tensor3 :=
  { N := 1, len := 2, dim := 1, data := fun _ _ _ => 1 }

/-- An all-ones (1, 3, 1) tensor: sequence length 3. -/
def onesT3len3 : Tensor3 :=
  { N := 1, len := 3, dim := 1, data := fun _ _ _ => 1 }

/-- A mask forbidding key position 0 and allowing every other key. -/
def maskKey0 : Mask4 := fun _ _ _ k => if k = 0 then 0 else 1

/-- A single concrete block at embed_size 1 with identity norm weights. -/
def oneBlock : BlockParams :=
  { attention := attnP1
    embed_size := 1
    forward_expansion := 1
    norm1_w := fun _ => 1
    norm1_b := fun _ => 0
    norm2_w := fun _ => 1
    norm2_b := fun _ => 0
    ff1 := zeroLinear
    ff2 := zeroLinear }

/-- Concrete decoder parameters: vocabulary 1, embed_size 1, max_length 4,
one block. -/
def decP : DecoderParams :=
  { trg_vocab_size := 1
    embed_size := 1
    max_length := 4
    word_embedding := fun _ _ => 0
    position_embedding := fun _ _ => 0
    layers := [oneBlock]
    fc_out := zeroLinear }

/-- Concrete encoder parameters matching decP. -/
def encP : EncoderParams :=
  { src_vocab_size := 1
    embed_size := 1
    max_length := 4
    word_embedding := fun _ _ => 0
    position_embedding := fun _ _ => 0
    layers := [oneBlock] }

/-- A concrete full model. -/
def modelP : TransformerParams := { encoder := encP, decoder := decP }

/-- A (1, 1) token tensor of zeros. -/
def idsLen1 : TokenIds := { N := 1, len := 1, ids := fun _ _ => 0 }

/-- A (1, 2) token tensor of zeros. -/
def idsLen2 : TokenIds := { N := 1, len := 2, ids := fun _ _ => 0 }

/-- A (1, 3) token tensor of zeros. -/
def idsLen3 : TokenIds := { N := 1, len := 3, ids := fun _ _ => 0 }

/-- A (1, 1) token tensor holding the out-of-vocabulary id 5. -/
def idsBad : TokenIds := { N := 1, len := 1, ids := fun _ _ => 5 }

/-- All-zero raw attention weights. -/
def zeroRawAttn : RawAttentionWeights :=
  { Wv := fun _ _ => 0, Wk := fun _ _ => 0, Wq := fun _ _ => 0, fc := zeroLinear }

/-- All-zero raw block weights with identity norms. -/
def zeroRawBlock : RawBlockWeights :=
  { attn := zeroRawAttn
    n1w := fun _ => 1
    n1b := fun _ => 0
    n2w := fun _ => 1
    n2b := fun _ => 0
    ff1 := zeroLinear
    ff2 := zeroLinear }

/-!  Theorems settling the claims. -/

/-- C1: the claim says the declared per-head-slice projection layers are
applied to the reshaped values/keys/query before the energy is computed.  The
source never applies them: SelfAttention.forward is invariant under replacing
all three projection weights, and at a concrete input the source energy (1)
differs from the spec's projected energy (0). -/
theorem C1_projection_layers_never_applied :
    (∀ (p : SelfAttentionParams) (Wv Wk Wq : ℕ → ℕ → ℝ)
        (values keys query : Tensor3) (mask : Option Mask4),
      SelfAttention.forward { p with values := Wv, keys := Wk, queries := Wq }
          values keys query mask =
        SelfAttention.forward p values keys query mask) ∧
    SelfAttention.rawEnergy attnP1 onesT3 onesT3 0 0 0 0 = 1 ∧
    specProjectedEnergy attnP1 onesT3 onesT3 0 0 0 0 = 0 := by
  refine ⟨fun p Wv Wk Wq v k q m => rfl, ?_, ?_⟩
  · simp [SelfAttention.rawEnergy, reshapeHeads, attnP1, onesT3]
  · simp [specProjectedEnergy, attnP1]

/-- C3: the attention weights are softmax(energy / sqrt(embed_size)) along
the key axis, the divisor being the square root of the full embed_size: the
source-side weights coincide with the spec-side formula on every input. -/
theorem C3_softmax_scaled_by_full_embed_size (p : SelfAttentionParams)
    (keys query : Tensor3) (mask : Option Mask4) :
    SelfAttention.attnWeights p keys query mask =
      specScaledSoftmax p keys query mask := rfl

/-- C4: where the mask is 0 the energy becomes the large negative sentinel
before normalization, and the resulting weight at a forbidden key position is
bounded by exp((sentinel - e') / sqrt(embed_size)) for the raw energy e' of
any allowed key position — negligibly small given the sentinel magnitude. -/
theorem C4_masked_positions_get_sentinel_and_tiny_weight
    (p : SelfAttentionParams) (keys query : Tensor3) (m : Mask4)
    (n h q k k' : ℕ) (hmk : m n h q k = 0) (hk' : k' < keys.len)
    (hmk' : m n h q k' ≠ 0) :
    SelfAttention.maskedEnergy p keys query (some m) n h q k = sentinel ∧
    SelfAttention.attnWeights p keys query (some m) n h q k ≤
      Real.exp ((sentinel - SelfAttention.rawEnergy p keys query n h q k') /
        Real.sqrt (p.embed_size : ℝ)) := by
  have hE : SelfAttention.maskedEnergy p keys query (some m) n h q k =
      sentinel := by
    simp [SelfAttention.maskedEnergy, hmk]
  have hE' : SelfAttention.maskedEnergy p keys query (some m) n h q k' =
      SelfAttention.rawEnergy p keys query n h q k' := by
    simp [SelfAttention.maskedEnergy, hmk']
  refine ⟨hE, ?_⟩
  have hDlb :
      Real.exp (SelfAttention.rawEnergy p keys query n h q k' /
          Real.sqrt (p.embed_size : ℝ)) ≤
        ∑ j ∈ Finset.range keys.len,
          Real.exp (SelfAttention.maskedEnergy p keys query (some m) n h q j /
            Real.sqrt (p.embed_size : ℝ)) := by
    rw [← hE']
    exact Finset.single_le_sum
      (f := fun j =>
        Real.exp (SelfAttention.maskedEnergy p keys query (some m) n h q j /
          Real.sqrt (p.embed_size : ℝ)))
      (fun j _ => (Real.exp_pos _).le) (Finset.mem_range.mpr hk')
  calc SelfAttention.attnWeights p keys query (some m) n h q k
      = Real.exp (sentinel / Real.sqrt (p.embed_size : ℝ)) /
          ∑ j ∈ Finset.range keys.len,
            Real.exp (SelfAttention.maskedEnergy p keys query (some m) n h q j /
              Real.sqrt (p.embed_size : ℝ)) := by
        simp only [SelfAttention.attnWeights, softmaxAt, hE]
    _ ≤ Real.exp (sentinel / Real.sqrt (p.embed_size : ℝ)) /
          Real.exp (SelfAttention.rawEnergy p keys query n h q k' /
            Real.sqrt (p.embed_size : ℝ)) :=
        div_le_div_of_nonneg_left (Real.exp_pos _).le (Real.exp_pos _) hDlb
    _ = Real.exp ((sentinel - SelfAttention.rawEnergy p keys query n h q k') /
          Real.sqrt (p.embed_size : ℝ)) := by
        rw [← Real.exp_sub, ← sub_div]

/-- Witness for C4 at a concrete input: key 0 is forbidden by maskKey0 and
key 1 is allowed in a length-2 key tensor. -/
theorem C4_masked_positions_witness :
    SelfAttention.maskedEnergy attnP1 onesT3len2 onesT3 (some maskKey0) 0 0 0 0 =
      sentinel ∧
    SelfAttention.attnWeights attnP1 onesT3len2 onesT3 (some maskKey0) 0 0 0 0 ≤
      Real.exp
        ((sentinel - SelfAttention.rawEnergy attnP1 onesT3len2 onesT3 0 0 0 1) /
          Real.sqrt ((attnP1.embed_size : ℕ) : ℝ)) :=
  C4_masked_positions_get_sentinel_and_tiny_weight attnP1 onesT3len2 onesT3
    maskKey0 0 0 0 0 1 (by norm_num [maskKey0])
    (by norm_num [onesT3len2]) (by norm_num [maskKey0])

/-- C5: with a non-empty key axis, each weights row at a fixed (batch, head,
query) is a probability distribution over key positions: non-negative entries
summing to 1. -/
theorem C5_weights_rows_are_distributions (p : SelfAttentionParams)
    (keys query : Tensor3) (mask : Option Mask4) (n h q : ℕ)
    (hk : 0 < keys.len) :
    (∀ k, 0 ≤ SelfAttention.attnWeights p keys query mask n h q k) ∧
    ∑ k ∈ Finset.range keys.len,
        SelfAttention.attnWeights p keys query mask n h q k = 1 := by
  have hD : 0 < ∑ j ∈ Finset.range keys.len,
      Real.exp (SelfAttention.maskedEnergy p keys query mask n h q j /
        Real.sqrt (p.embed_size : ℝ)) :=
    Finset.sum_pos (fun j _ => Real.exp_pos _) ⟨0, Finset.mem_range.mpr hk⟩
  constructor
  · intro k
    simp only [SelfAttention.attnWeights, softmaxAt]
    exact div_nonneg (Real.exp_pos _).le hD.le
  · simp only [SelfAttention.attnWeights, softmaxAt]
    rw [← Finset.sum_div, div_self hD.ne']

/-- Witness for C5 at a concrete input with key length 2. -/
theorem C5_weights_rows_witness :
    (∀ k, 0 ≤ SelfAttention.attnWeights attnP1 onesT3len2 onesT3 none 0 0 0 k) ∧
    ∑ k ∈ Finset.range onesT3len2.len,
        SelfAttention.attnWeights attnP1 onesT3len2 onesT3 none 0 0 0 k = 1 :=
  C5_weights_rows_are_distributions attnP1 onesT3len2 onesT3 none 0 0 0
    (by norm_num [onesT3len2])

/-- C6: when the attention call succeeds (the contracted lengths agree) the
Block output is Normalize(feed_forward(x) + x) for
x = Normalize(attn_out + query) — the residual addend is query — and the
output has exactly the shape of query. -/
theorem C6_block_residual_against_query_and_shape (bp : BlockParams)
    (value key query : Tensor3) (mask : Option Mask4)
    (hlen : value.len = key.len) (hdim : query.dim = bp.embed_size) :
    TransformerBlock.forward bp value key query mask =
      some (TransformerBlock.post bp
        (SelfAttention.attnOut bp.attention value key query mask) query) ∧
    (∀ n l e,
      (TransformerBlock.post bp
          (SelfAttention.attnOut bp.attention value key query mask) query).data
            n l e =
        specBlockOut bp
          (fun i =>
            (SelfAttention.attnOut bp.attention value key query mask).data n l i)
          (fun i => query.data n l i) e) ∧
    (TransformerBlock.post bp
        (SelfAttention.attnOut bp.attention value key query mask) query).N =
      query.N ∧
    (TransformerBlock.post bp
        (SelfAttention.attnOut bp.attention value key query mask) query).len =
      query.len ∧
    (TransformerBlock.post bp
        (SelfAttention.attnOut bp.attention value key query mask) query).dim =
      query.dim := by
  refine ⟨?_, fun n l e => rfl, rfl, rfl, hdim.symm⟩
  unfold TransformerBlock.forward SelfAttention.forward
  rw [if_pos (Or.inl hlen)]
  rfl

/-- Witness for C6 at a concrete self-attention input. -/
theorem C6_block_residual_witness :
    TransformerBlock.forward oneBlock onesT3 onesT3 onesT3 none =
      some (TransformerBlock.post oneBlock
        (SelfAttention.attnOut oneBlock.attention onesT3 onesT3 onesT3 none)
        onesT3) ∧
    (∀ n l e,
      (TransformerBlock.post oneBlock
          (SelfAttention.attnOut oneBlock.attention onesT3 onesT3 onesT3 none)
          onesT3).data n l e =
        specBlockOut oneBlock
          (fun i =>
            (SelfAttention.attnOut oneBlock.attention onesT3 onesT3 onesT3
              none).data n l i)
          (fun i => onesT3.data n l i) e) ∧
    (TransformerBlock.post oneBlock
        (SelfAttention.attnOut oneBlock.attention onesT3 onesT3 onesT3 none)
        onesT3).N = onesT3.N ∧
    (TransformerBlock.post oneBlock
        (SelfAttention.attnOut oneBlock.attention onesT3 onesT3 onesT3 none)
        onesT3).len = onesT3.len ∧
    (TransformerBlock.post oneBlock
        (SelfAttention.attnOut oneBlock.attention onesT3 onesT3 onesT3 none)
        onesT3).dim = onesT3.dim :=
  C6_block_residual_against_query_and_shape oneBlock onesT3 onesT3 onesT3 none
    rfl rfl

/-- C10: the Decoder's third positional forward parameter (src_mask) is never
read: any two values supplied there, even of different types, yield identical
decoder output. -/
theorem C10_decoder_never_reads_src_mask {α β : Type} (p : DecoderParams)
    (x : TokenIds) (enc_out : Tensor3) (m1 : α) (m2 : β)
    (trg_mask : Option Mask4) :
    Decoder.forward p x enc_out m1 trg_mask =
      Decoder.forward p x enc_out m2 trg_mask := rfl

/-- Helper: with a positive head count, the SelfAttention constructor fails
exactly when heads does not divide embed_size. -/
theorem mkSelfAttention_eq_none_iff (e heads : ℕ) (w : RawAttentionWeights)
    (hh : 0 < heads) : mkSelfAttention e heads w = none ↔ ¬ heads ∣ e := by
  unfold mkSelfAttention
  rw [if_neg hh.ne']
  constructor
  · intro h hdvd
    rw [if_pos (Nat.div_mul_cancel hdvd)] at h
    exact Option.noConfusion h
  · intro hnd
    rw [if_neg]
    intro heq
    exact hnd ⟨e / heads, by rw [mul_comm, heq]⟩

/-- Helper: with a positive head count and divisibility, the SelfAttention
constructor succeeds with head_dim = embed_size / heads. -/
theorem mkSelfAttention_eq_some (e heads : ℕ) (w : RawAttentionWeights)
    (hh : 0 < heads) (hdvd : heads ∣ e) :
    mkSelfAttention e heads w =
      some { embed_size := e, heads := heads, head_dim := e / heads,
             values := w.Wv, keys := w.Wk, queries := w.Wq, fc_out := w.fc } := by
  unfold mkSelfAttention
  rw [if_neg hh.ne', if_pos (Nat.div_mul_cancel hdvd)]

/-- Helper: a successfully constructed SelfAttention has
head_dim = embed_size / heads. -/
theorem mkSelfAttention_head_dim (e heads : ℕ) (w : RawAttentionWeights)
    (ap : SelfAttentionParams) (h : mkSelfAttention e heads w = some ap) :
    ap.head_dim = e / heads := by
  unfold mkSelfAttention at h
  by_cases h0 : heads = 0
  · rw [if_pos h0] at h
    exact Option.noConfusion h
  · rw [if_neg h0] at h
    by_cases hc : e / heads * heads = e
    · rw [if_pos hc] at h
      injection h with h'
      rw [← h']
    · rw [if_neg hc] at h
      exact Option.noConfusion h

/-- Helper: when heads does not divide embed_size (heads positive), building
any positive number of blocks fails at the first SelfAttention assert. -/
theorem mkLayers_eq_none (e heads fexp : ℕ) (raws : ℕ → RawBlockWeights)
    (hh : 0 < heads) (hnd : ¬ heads ∣ e) (n : ℕ) (hn : 0 < n) :
    mkLayers e heads fexp raws n = none := by
  cases n with
  | zero => exact absurd hn (lt_irrefl 0)
  | succ m =>
    unfold mkLayers mkTransformerBlock
    rw [(mkSelfAttention_eq_none_iff e heads (raws m).attn hh).mpr hnd]
    rfl

/-- Helper: under divisibility every block list builds. -/
theorem mkLayers_isSome (e heads fexp : ℕ) (raws : ℕ → RawBlockWeights)
    (hh : 0 < heads) (hdvd : heads ∣ e) (n : ℕ) :
    (mkLayers e heads fexp raws n).isSome = true := by
  induction n with
  | zero => rfl
  | succ m ih =>
    obtain ⟨L, hL⟩ := Option.isSome_iff_exists.mp ih
    unfold mkLayers mkTransformerBlock
    rw [mkSelfAttention_eq_some e heads (raws m).attn hh hdvd, hL]
    rfl

/-- Helper: every successfully built block has head_dim = embed_size / heads
in its attention sub-module. -/
theorem mkLayers_head_dim (e heads fexp : ℕ) (raws : ℕ → RawBlockWeights) :
    ∀ (n : ℕ) (L : List BlockParams), mkLayers e heads fexp raws n = some L →
      ∀ bp ∈ L, bp.attention.head_dim = e / heads := by
  intro n
  induction n with
  | zero =>
    intro L hL bp hbp
    injection hL with hL'
    rw [← hL'] at hbp
    exact absurd hbp (List.not_mem_nil bp)
  | succ m ih =>
    intro L hL bp hbp
    unfold mkLayers at hL
    cases hB : mkTransformerBlock e heads fexp (raws m) with
    | none => rw [hB] at hL; exact Option.noConfusion hL
    | some b =>
      rw [hB] at hL
      cases hM : mkLayers e heads fexp raws m with
      | none => rw [hM] at hL; exact Option.noConfusion hL
      | some L' =>
        rw [hM] at hL
        injection hL with hL'
        rw [← hL'] at hbp
        rcases List.mem_cons.mp hbp with h | h
        · subst h
          unfold mkTransformerBlock at hB
          cases hS : mkSelfAttention e heads (raws m).attn with
          | none => rw [hS] at hB; exact Option.noConfusion hB
          | some ap =>
            rw [hS] at hB
            injection hB with hB'
            rw [← hB']
            exact mkSelfAttention_head_dim e heads (raws m).attn ap hS
        · exact ih L' hM bp h

/-- C7: with at least one head and at least one layer, model construction
fails when embed_size is not divisible by heads (so no forward pass is
possible: no parameters exist), and succeeds with head_dim =
embed_size / heads in every block when it is divisible. -/
theorem C7_construction_fails_unless_divisible
    (src_vocab trg_vocab embed num_layers heads fexp max_len : ℕ)
    (wEs pEs wEd pEd : ℕ → ℕ → ℝ) (rawsE rawsD : ℕ → RawBlockWeights)
    (fc : LinearParams) (hh : 0 < heads) (hn : 0 < num_layers) :
    (¬ heads ∣ embed →
      mkTransformer src_vocab trg_vocab embed num_layers heads fexp max_len
        wEs pEs wEd pEd rawsE rawsD fc = none) ∧
    (heads ∣ embed →
      ∃ tp, mkTransformer src_vocab trg_vocab embed num_layers heads fexp
          max_len wEs pEs wEd pEd rawsE rawsD fc = some tp ∧
        (∀ bp ∈ tp.encoder.layers, bp.attention.head_dim = embed / heads) ∧
        (∀ bp ∈ tp.decoder.layers, bp.attention.head_dim = embed / heads)) := by
  constructor
  · intro hnd
    unfold mkTransformer mkEncoder
    rw [mkLayers_eq_none embed heads fexp rawsE hh hnd num_layers hn]
    rfl
  · intro hdvd
    obtain ⟨LE, hLE⟩ := Option.isSome_iff_exists.mp
      (mkLayers_isSome embed heads fexp rawsE hh hdvd num_layers)
    obtain ⟨LD, hLD⟩ := Option.isSome_iff_exists.mp
      (mkLayers_isSome embed heads fexp rawsD hh hdvd num_layers)
    refine ⟨{ encoder := { src_vocab_size := src_vocab, embed_size := embed,
                           max_length := max_len, word_embedding := wEs,
                           position_embedding := pEs, layers := LE },
              decoder := { trg_vocab_size := trg_vocab, embed_size := embed,
                           max_length := max_len, word_embedding := wEd,
                           position_embedding := pEd, layers := LD,
                           fc_out := fc } }, ?_, ?_, ?_⟩
    · unfold mkTransformer mkEncoder mkDecoder
      rw [hLE, hLD]
      rfl
    · exact mkLayers_head_dim embed heads fexp rawsE num_layers LE hLE
    · exact mkLayers_head_dim embed heads fexp rawsD num_layers LD hLD

/-- Witness for C7 at embed_size 4, heads 2, one layer (and, for the failing
branch, the hypothesis that 2 divides 4 discharges the success case). -/
theorem C7_construction_witness :
    (¬ (2 : ℕ) ∣ 4 →
      mkTransformer 1 1 4 1 2 1 4 (fun _ _ => 0) (fun _ _ => 0) (fun _ _ => 0)
        (fun _ _ => 0) (fun _ => zeroRawBlock) (fun _ => zeroRawBlock)
        zeroLinear = none) ∧
    ((2 : ℕ) ∣ 4 →
      ∃ tp, mkTransformer 1 1 4 1 2 1 4 (fun _ _ => 0) (fun _ _ => 0)
          (fun _ _ => 0) (fun _ _ => 0) (fun _ => zeroRawBlock)
          (fun _ => zeroRawBlock) zeroLinear = some tp ∧
        (∀ bp ∈ tp.encoder.layers, bp.attention.head_dim = 4 / 2) ∧
        (∀ bp ∈ tp.decoder.layers, bp.attention.head_dim = 4 / 2)) :=
  C7_construction_fails_unless_divisible 1 1 4 1 2 1 4 (fun _ _ => 0)
    (fun _ _ => 0) (fun _ _ => 0) (fun _ _ => 0) (fun _ => zeroRawBlock)
    (fun _ => zeroRawBlock) zeroLinear (by norm_num) (by norm_num)

/-- Helper: the Decoder fails with no output when its embedding-range guard
is violated. -/
theorem decoder_forward_eq_none_of_bad {α : Type} (p : DecoderParams)
    (x : TokenIds) (enc_out : Tensor3) (sm : α) (tm : Option Mask4)
    (hbad : ¬ ((∀ n < x.N, ∀ l < x.len, x.ids n l < p.trg_vocab_size) ∧
      x.len ≤ p.max_length)) :
    Decoder.forward p x enc_out sm tm = none := by
  unfold Decoder.forward
  rw [if_neg hbad]

/-- Helper: the Encoder fails with no output when its embedding-range guard
is violated. -/
theorem encoder_forward_eq_none_of_bad (p : EncoderParams) (x : TokenIds)
    (m : Option Mask4)
    (hbad : ¬ ((∀ n < x.N, ∀ l < x.len, x.ids n l < p.src_vocab_size) ∧
      x.len ≤ p.max_length)) :
    Encoder.forward p x m = none := by
  unfold Encoder.forward
  rw [if_neg hbad]

/-- C8: a forward call whose target ids contain an id ≥ trg_vocab_size, or
whose target length exceeds max_length — likewise on the source side —
produces none: a range error with no partial output and no wrapping or
clamping. -/
theorem C8_out_of_range_fails_with_no_output (tp : TransformerParams)
    (src trg : TokenIds) (sm tm : Option Mask4) :
    ((∃ n, n < trg.N ∧ ∃ l, l < trg.len ∧
        tp.decoder.trg_vocab_size ≤ trg.ids n l) →
      Transformer.forward tp src trg sm tm = none) ∧
    (tp.decoder.max_length < trg.len →
      Transformer.forward tp src trg sm tm = none) ∧
    ((∃ n, n < src.N ∧ ∃ l, l < src.len ∧
        tp.encoder.src_vocab_size ≤ src.ids n l) →
      Transformer.forward tp src trg sm tm = none) ∧
    (tp.encoder.max_length < src.len →
      Transformer.forward tp src trg sm tm = none) := by
  have decSide : ∀ hbad : ¬ ((∀ n < trg.N, ∀ l < trg.len,
      trg.ids n l < tp.decoder.trg_vocab_size) ∧
        trg.len ≤ tp.decoder.max_length),
      Transformer.forward tp src trg sm tm = none := by
    intro hbad
    unfold Transformer.forward
    cases hE : Encoder.forward tp.encoder src sm with
    | none => rfl
    | some enc_out =>
      exact decoder_forward_eq_none_of_bad tp.decoder trg enc_out enc_out tm hbad
  have encSide : ∀ hbad : ¬ ((∀ n < src.N, ∀ l < src.len,
      src.ids n l < tp.encoder.src_vocab_size) ∧
        src.len ≤ tp.encoder.max_length),
      Transformer.forward tp src trg sm tm = none := by
    intro hbad
    unfold Transformer.forward
    rw [encoder_forward_eq_none_of_bad tp.encoder src sm hbad]
  refine ⟨?_, ?_, ?_, ?_⟩
  · rintro ⟨n, hn, l, hl, hge⟩
    exact decSide (fun ⟨hall, _⟩ => absurd (hall n hn l hl) (not_lt.mpr hge))
  · intro hlen
    exact decSide (fun ⟨_, hle⟩ => absurd hle (not_le.mpr hlen))
  · rintro ⟨n, hn, l, hl, hge⟩
    exact encSide (fun ⟨hall, _⟩ => absurd (hall n hn l hl) (not_lt.mpr hge))
  · intro hlen
    exact encSide (fun ⟨_, hle⟩ => absurd hle (not_le.mpr hlen))

/-- Witness for C8: id 5 with target vocabulary 1, and a length-5 source with
max_length 4. -/
theorem C8_out_of_range_witness :
    Transformer.forward modelP idsLen1 idsBad none none = none ∧
    Transformer.forward modelP { N := 1, len := 5, ids := fun _ _ => 0 }
      idsLen1 none none = none :=
  ⟨(C8_out_of_range_fails_with_no_output modelP idsLen1 idsBad none none).1
      ⟨0, by norm_num [idsBad], 0, by norm_num [idsBad], by norm_num [idsBad, modelP, decP]⟩,
    (C8_out_of_range_fails_with_no_output modelP
        { N := 1, len := 5, ids := fun _ _ => 0 } idsLen1 none none).2.2.2
      (by norm_num [modelP, encP])⟩

/-- Helper: a successful block output inherits batch and length from the
query argument. -/
theorem block_forward_shape (bp : BlockParams) (value key query : Tensor3)
    (mask : Option Mask4) (t : Tensor3)
    (h : TransformerBlock.forward bp value key query mask = some t) :
    t.N = query.N ∧ t.len = query.len := by
  unfold TransformerBlock.forward SelfAttention.forward at h
  by_cases hc : value.len = key.len ∨ value.len = 1 ∨ key.len = 1
  · rw [if_pos hc] at h
    injection h with h'
    rw [← h']
    exact ⟨rfl, rfl⟩
  · rw [if_neg hc] at h
    exact Option.noConfusion h

/-- Helper: the encoder layer loop preserves batch and length. -/
theorem runLayersSelf_shape :
    ∀ (L : List BlockParams) (t : Tensor3) (m : Option Mask4) (t' : Tensor3),
      runLayersSelf L t m = some t' → t'.N = t.N ∧ t'.len = t.len := by
  intro L
  induction L with
  | nil =>
    intro t m t' h
    injection h with h'
    rw [← h']
    exact ⟨rfl, rfl⟩
  | cons bp rest ih =>
    intro t m t' h
    unfold runLayersSelf at h
    cases hB : TransformerBlock.forward bp t t t m with
    | none => rw [hB] at h; exact Option.noConfusion h
    | some u =>
      rw [hB] at h
      have hu := block_forward_shape bp t t t m u hB
      have ht' := ih u m t' h
      exact ⟨ht'.1.trans hu.1, ht'.2.trans hu.2⟩

/-- Helper: a successful Encoder output has the batch and length of its
token input. -/
theorem encoder_forward_shape (p : EncoderParams) (x : TokenIds)
    (m : Option Mask4) (t : Tensor3) (h : Encoder.forward p x m = some t) :
    t.N = x.N ∧ t.len = x.len := by
  unfold Encoder.forward at h
  by_cases hg : (∀ n < x.N, ∀ l < x.len, x.ids n l < p.src_vocab_size) ∧
      x.len ≤ p.max_length
  · rw [if_pos hg] at h
    exact runLayersSelf_shape p.layers
      (embedTokens p.embed_size p.word_embedding p.position_embedding x) m t h
  · rw [if_neg hg] at h
    exact Option.noConfusion h

/-- C9, refuting the claim as stated: torch.einsum broadcasts a size-1
occurrence of the contracted label, so SelfAttention with value length 1 and
key length 2 returns a tensor rather than failing, and the one-layer model
forward succeeds with src_len 2 and trg_len 1. -/
theorem C9_broadcast_length_one_succeeds :
    (SelfAttention.forward attnP1 onesT3 onesT3len2 onesT3 none).isSome =
      true ∧
    (Transformer.forward modelP idsLen2 idsLen1 none none).isSome = true := by
  constructor
  · unfold SelfAttention.forward
    rw [if_pos]
    · rfl
    · norm_num [onesT3, onesT3len2]
  · have hencblock : TransformerBlock.forward oneBlock
        (embedTokens encP.embed_size encP.word_embedding
          encP.position_embedding idsLen2)
        (embedTokens encP.embed_size encP.word_embedding
          encP.position_embedding idsLen2)
        (embedTokens encP.embed_size encP.word_embedding
          encP.position_embedding idsLen2) none =
        some (TransformerBlock.post oneBlock
          (SelfAttention.attnOut oneBlock.attention
            (embedTokens encP.embed_size encP.word_embedding
              encP.position_embedding idsLen2)
            (embedTokens encP.embed_size encP.word_embedding
              encP.position_embedding idsLen2)
            (embedTokens encP.embed_size encP.word_embedding
              encP.position_embedding idsLen2) none)
          (embedTokens encP.embed_size encP.word_embedding
            encP.position_embedding idsLen2)) := by
      unfold TransformerBlock.forward SelfAttention.forward
      rw [if_pos (Or.inl rfl)]
      rfl
    have henc : Encoder.forward encP idsLen2 none =
        some (TransformerBlock.post oneBlock
          (SelfAttention.attnOut oneBlock.attention
            (embedTokens encP.embed_size encP.word_embedding
              encP.position_embedding idsLen2)
            (embedTokens encP.embed_size encP.word_embedding
              encP.position_embedding idsLen2)
            (embedTokens encP.embed_size encP.word_embedding
              encP.position_embedding idsLen2) none)
          (embedTokens encP.embed_size encP.word_embedding
            encP.position_embedding idsLen2)) := by
      unfold Encoder.forward
      rw [if_pos]
      · show runLayersSelf [oneBlock] _ _ = _
        unfold runLayersSelf
        rw [hencblock]
        rfl
      · refine ⟨?_, by norm_num [idsLen2, encP]⟩
        intro n _ l _
        norm_num [idsLen2, encP]
    have hdecblock : ∀ enc_out : Tensor3, TransformerBlock.forward oneBlock
        (embedTokens decP.embed_size decP.word_embedding
          decP.position_embedding idsLen1) enc_out
        (embedTokens decP.embed_size decP.word_embedding
          decP.position_embedding idsLen1) none =
        some (TransformerBlock.post oneBlock
          (SelfAttention.attnOut oneBlock.attention
            (embedTokens decP.embed_size decP.word_embedding
              decP.position_embedding idsLen1) enc_out
            (embedTokens decP.embed_size decP.word_embedding
              decP.position_embedding idsLen1) none)
          (embedTokens decP.embed_size decP.word_embedding
            decP.position_embedding idsLen1)) := by
      intro enc_out
      unfold TransformerBlock.forward SelfAttention.forward
      rw [if_pos (show (embedTokens decP.embed_size decP.word_embedding
          decP.position_embedding idsLen1).len = enc_out.len ∨
            (embedTokens decP.embed_size decP.word_embedding
              decP.position_embedding idsLen1).len = 1 ∨ enc_out.len = 1 from
        Or.inr (Or.inl rfl))]
      rfl
    have hdec : ∀ enc_out : Tensor3,
        (Decoder.forward decP idsLen1 enc_out enc_out none).isSome = true := by
      intro enc_out
      have hrun : runLayersCross decP.layers
          (embedTokens decP.embed_size decP.word_embedding
            decP.position_embedding idsLen1) enc_out none =
          some (TransformerBlock.post oneBlock
            (SelfAttention.attnOut oneBlock.attention
              (embedTokens decP.embed_size decP.word_embedding
                decP.position_embedding idsLen1) enc_out
              (embedTokens decP.embed_size decP.word_embedding
                decP.position_embedding idsLen1) none)
            (embedTokens decP.embed_size decP.word_embedding
              decP.position_embedding idsLen1)) := by
        show runLayersCross [oneBlock] _ _ _ = _
        unfold runLayersCross
        rw [hdecblock enc_out]
        rfl
      unfold Decoder.forward
      rw [if_pos]
      · rw [hrun]
        rfl
      · refine ⟨?_, by norm_num [idsLen1, decP]⟩
        intro n _ l _
        norm_num [idsLen1, decP]
    unfold Transformer.forward
    simp only [modelP]
    rw [henc]
    exact hdec _

/-- C9 as amended: SelfAttention fails (returns nothing) when the values
length differs from the keys length and neither is 1 (a size-1 length
broadcasts in torch.einsum); consequently, since each decoder layer passes
the decoder state (length trg_len) as values and the encoder output (length
src_len) as keys, a full model forward pass with at least one decoder layer
fails whenever the two sequence lengths differ and neither is 1. -/
theorem C9_nonbroadcastable_length_mismatch_fails :
    (∀ (p : SelfAttentionParams) (values keys query : Tensor3)
        (mask : Option Mask4), values.len ≠ keys.len → values.len ≠ 1 →
      keys.len ≠ 1 → SelfAttention.forward p values keys query mask = none) ∧
    (∀ (tp : TransformerParams) (src trg : TokenIds) (sm tm : Option Mask4),
      tp.decoder.layers ≠ [] → trg.len ≠ src.len → trg.len ≠ 1 →
      src.len ≠ 1 → Transformer.forward tp src trg sm tm = none) := by
  constructor
  · intro p v k q m hne hv1 hk1
    unfold SelfAttention.forward
    rw [if_neg]
    rintro (h | h | h)
    · exact hne h
    · exact hv1 h
    · exact hk1 h
  · intro tp src trg sm tm hlayers hne htrg1 hsrc1
    cases hE : Encoder.forward tp.encoder src sm with
    | none =>
      unfold Transformer.forward
      rw [hE]
    | some enc_out =>
      have hel : enc_out.len = src.len :=
        (encoder_forward_shape tp.encoder src sm enc_out hE).2
      obtain ⟨bp, rest, hL⟩ := List.exists_cons_of_ne_nil hlayers
      have hdec : Decoder.forward tp.decoder trg enc_out enc_out tm = none := by
        unfold Decoder.forward
        by_cases hg : (∀ n < trg.N, ∀ l < trg.len,
            trg.ids n l < tp.decoder.trg_vocab_size) ∧
              trg.len ≤ tp.decoder.max_length
        · rw [if_pos hg, hL]
          have hblock : TransformerBlock.forward bp
              (embedTokens tp.decoder.embed_size tp.decoder.word_embedding
                tp.decoder.position_embedding trg) enc_out
              (embedTokens tp.decoder.embed_size tp.decoder.word_embedding
                tp.decoder.position_embedding trg) tm = none := by
            unfold TransformerBlock.forward SelfAttention.forward
            rw [if_neg]
            · rfl
            · show ¬ ((embedTokens tp.decoder.embed_size
                tp.decoder.word_embedding tp.decoder.position_embedding
                trg).len = enc_out.len ∨
                  (embedTokens tp.decoder.embed_size tp.decoder.word_embedding
                    tp.decoder.position_embedding trg).len = 1 ∨
                  enc_out.len = 1)
              rw [hel]
              rintro (h | h | h)
              · exact hne h
              · exact htrg1 h
              · exact hsrc1 h
          have hrun : runLayersCross (bp :: rest)
              (embedTokens tp.decoder.embed_size tp.decoder.word_embedding
                tp.decoder.position_embedding trg) enc_out tm = none := by
            unfold runLayersCross
            rw [hblock]
          rw [hrun]
        · rw [if_neg hg]
      unfold Transformer.forward
      rw [hE]
      exact hdec

/-- Witness for the amended C9 at concrete inputs: a non-broadcastable
values/keys length mismatch 2 ≠ 3, and the concrete one-layer model applied
to a length-3 source with a length-2 target. -/
theorem C9_nonbroadcastable_witness :
    SelfAttention.forward attnP1 onesT3len2 onesT3len3 onesT3 none = none ∧
    Transformer.forward modelP idsLen3 idsLen2 none none = none :=
  ⟨C9_nonbroadcastable_length_mismatch_fails.1 attnP1 onesT3len2 onesT3len3
      onesT3 none (by norm_num [onesT3len2, onesT3len3])
      (by norm_num [onesT3len2]) (by norm_num [onesT3len3]),
    C9_nonbroadcastable_length_mismatch_fails.2 modelP idsLen3 idsLen2 none
      none (by simp [modelP, decP]) (by norm_num [idsLen2, idsLen3])
      (by norm_num [idsLen2]) (by norm_num [idsLen3])⟩

/-- C2: the claim says every decoder Block is invoked with value = key =
enc_out.  The source invokes layer(x, enc_out, x, trg_mask), binding value to
the current decoder state: at a concrete input whose encoder output length 3
and target length 2 do not broadcast, the source decoder errors with no
output, while the decoder the claim describes (value = key = enc_out)
succeeds. -/
theorem C2_decoder_binds_state_as_value_not_enc_out :
    Decoder.forward decP idsLen2 onesT3len3 onesT3len3 none = none ∧
    (specDecoderForward decP idsLen2 onesT3len3 onesT3len3 none).isSome =
      true := by
  constructor
  · unfold Decoder.forward
    rw [if_pos]
    · have hblock : TransformerBlock.forward oneBlock
          (embedTokens decP.embed_size decP.word_embedding
            decP.position_embedding idsLen2) onesT3len3
          (embedTokens decP.embed_size decP.word_embedding
            decP.position_embedding idsLen2) none = none := by
        unfold TransformerBlock.forward SelfAttention.forward
        rw [if_neg]
        · rfl
        · norm_num [embedTokens, idsLen2, onesT3len3]
      have hrun : runLayersCross decP.layers
          (embedTokens decP.embed_size decP.word_embedding
            decP.position_embedding idsLen2) onesT3len3 none = none := by
        show runLayersCross [oneBlock] _ _ _ = none
        unfold runLayersCross
        rw [hblock]
      rw [hrun]
    · refine ⟨?_, by norm_num [idsLen2, decP]⟩
      intro n _ l _
      norm_num [idsLen2, decP]
  · unfold specDecoderForward
    rw [if_pos]
    · have hblock : TransformerBlock.forward oneBlock onesT3len3 onesT3len3
          (embedTokens decP.embed_size decP.word_embedding
            decP.position_embedding idsLen2) none =
          some (TransformerBlock.post oneBlock
            (SelfAttention.attnOut oneBlock.attention onesT3len3 onesT3len3
              (embedTokens decP.embed_size decP.word_embedding
                decP.position_embedding idsLen2) none)
            (embedTokens decP.embed_size decP.word_embedding
              decP.position_embedding idsLen2)) := by
        unfold TransformerBlock.forward SelfAttention.forward
        rw [if_pos (Or.inl rfl)]
        rfl
      have hrun : specRunLayersCross decP.layers
          (embedTokens decP.embed_size decP.word_embedding
            decP.position_embedding idsLen2) onesT3len3 none =
          some (TransformerBlock.post oneBlock
            (SelfAttention.attnOut oneBlock.attention onesT3len3 onesT3len3
              (embedTokens decP.embed_size decP.word_embedding
                decP.position_embedding idsLen2) none)
            (embedTokens decP.embed_size decP.word_embedding
              decP.position_embedding idsLen2)) := by
        show specRunLayersCross [oneBlock] _ _ _ = _
        unfold specRunLayersCross
        rw [hblock]
        rfl
      rw [hrun]
      rfl
    · refine ⟨?_, by norm_num [idsLen2, decP]⟩
      intro n _ l _
      norm_num [idsLen2, decP]

end
